import Mathlib

/-!
Shallow embedding of the daily aggregation and goal-evaluation core of
`weight_app.py` (a Streamlit weight/food/water tracking dashboard).

The embedded functions are:
  * `load_data`                    (weight_app.py, lines 241-251)
  * `calculate_daily_summary`      (weight_app.py, lines 253-277)
  * `calculate_daily_macros_goal`  (weight_app.py, lines 279-330)
  * the default-installation step of `get_config` (lines 82-88)

Spreadsheet tables are modelled as dataframes: a list of column names plus a
list of rows, each row an association list from column name to cell value.
Cell values are modelled by an inductive `Cell`: a number, a raw string, a
date in one of the representations the date column has historically held
(bare `YYYY-MM-DD` string, parsed date object, or timestamp with a time
component), or a blank/NaN.  `pd.to_numeric(_, errors=..).fillna(0)` is
modelled by `cellNum` (a decimal-string parser with non-parseable cells
going to 0), and `pd.to_datetime(_).dt.strftime` by `normalizeDateCell`.
Numbers are rationals.
-/

namespace WeightApp

/-- A calendar date, as carried by Python `datetime.date` / pandas timestamps. -/
structure Date where
  year : Nat
  month : Nat
  day : Nat
deriving DecidableEq, Repr

/-- A date is in the range representable by the `%Y-%m-%d` serialization the app
uses (four-digit year, real month and day numbers). -/
def Date.Valid (d : Date) : Prop :=
  d.year < 10000 ∧ 0 < d.month ∧ d.month ≤ 12 ∧ 0 < d.day ∧ d.day ≤ 31

instance (d : Date) : Decidable d.Valid := by
  unfold Date.Valid; infer_instance

/-- The representations the stored date column has held across revisions:
a bare `YYYY-MM-DD` string, a parsed date object, or a timestamp carrying a
(possibly non-midnight) time of day.  `pd.to_datetime` parses any of them. -/
inductive DateRep where
  | bare (d : Date)
  | dateObj (d : Date)
  | timestamp (d : Date) (hour minute : Nat)
deriving DecidableEq, Repr

/-- The calendar date denoted by a stored date representation. -/
def DateRep.dateOf : DateRep → Date
  | .bare d => d
  | .dateObj d => d
  | .timestamp d _ _ => d

/-- Two decimal digits, zero padded (`%m` / `%d` and time fields). -/
def pad2 (n : Nat) : List Char :=
  [Nat.digitChar (n / 10 % 10), Nat.digitChar (n % 10)]

/-- Four decimal digits, zero padded (`%Y`). -/
def pad4 (n : Nat) : List Char :=
  [Nat.digitChar (n / 1000 % 10), Nat.digitChar (n / 100 % 10),
   Nat.digitChar (n / 10 % 10), Nat.digitChar (n % 10)]

/-- `strftime("%Y-%m-%d")`, which is also `str(d)` for a Python `date`. -/
def toYMD (d : Date) : String :=
  ⟨pad4 d.year ++ '-' :: pad2 d.month ++ '-' :: pad2 d.day⟩

/-- Accumulate a digit list into a natural number. -/
def digitsNat (cs : List Char) : Nat :=
  cs.foldl (fun n c => n * 10 + (c.toNat - 48)) 0

/-- Decimal number parser modelling `pd.to_numeric(_, errors="coerce")` on a
string cell: optional sign, integer part, optional fractional part; anything
else (blank included) fails to parse. -/
def parseRat (s : String) : Option ℚ :=
  let go : List Char → Option ℚ := fun cs =>
    let ip := cs.takeWhile Char.isDigit
    let rest := cs.dropWhile Char.isDigit
    match rest with
    | [] => if ip.isEmpty then none else some (digitsNat ip)
    | '.' :: fp =>
        if fp.all Char.isDigit && !(ip.isEmpty && fp.isEmpty) then
          some ((digitsNat ip : ℚ) + (digitsNat fp : ℚ) / (10 ^ fp.length))
        else none
    | _ => none
  match s.data with
  | '-' :: cs => (go cs).map (fun q => -q)
  | '+' :: cs => go cs
  | cs => go cs

/-- A spreadsheet/dataframe cell. `blank` stands for a missing value (NaN). -/
inductive Cell where
  | num (q : ℚ)
  | str (s : String)
  | date (r : DateRep)
  | blank
deriving DecidableEq, Repr

/-- The numeric value of a cell under `pd.to_numeric(_, errors="coerce")`:
`none` is NaN (blank, non-numeric string, date, missing). -/
def Cell.numOpt : Cell → Option ℚ
  | .num q => some q
  | .str s => parseRat s
  | _ => none

/-- `pd.to_numeric(_, errors="coerce").fillna(0)` on one (possibly absent) cell. -/
def cellNum (c : Option Cell) : ℚ :=
  ((c.bind Cell.numOpt).getD 0)

/-- `astype(str)` / Python `str()` on a cell.  A NaN renders as `"nan"`. -/
def Cell.asStr : Cell → String
  | .str s => s
  | .num q => toString q
  | .date (.bare d) => toYMD d
  | .date (.dateObj d) => toYMD d
  | .date (.timestamp d h m) =>
      toYMD d ++ " " ++ (⟨pad2 h⟩ : String) ++ ":" ++ (⟨pad2 m⟩ : String) ++ ":00"
  | .blank => "nan"

/-- `astype(str)` on a possibly-absent cell. -/
def optAsStr : Option Cell → String
  | some c => c.asStr
  | none => "nan"

/-- A row: association list from column name to cell, as returned by
`get_all_records`. -/
abbrev Row := List (String × Cell)

/-- Look a column up in a row. -/
def Row.get (r : Row) (c : String) : Option Cell :=
  (r.find? (fun p => p.1 == c)).map Prod.snd

/-- A dataframe: its column index and its rows. -/
structure DF where
  cols : List String
  rows : List Row
deriving DecidableEq, Repr

/-- Sheet name constant (weight_app.py line 15). -/
def FOOD_SHEET_NAME : String := "Food Log"

/-- Sheet name constant (weight_app.py line 16). -/
def WATER_SHEET_NAME : String := "Water Log"

/-- `pd.to_datetime(_, errors="coerce").dt.strftime("%Y-%m-%d")` on one cell of
the date column: every parseable representation is re-serialized to the
canonical `YYYY-MM-DD` string; anything unparseable becomes NaT and then NaN. -/
def normalizeDateCell : Cell → Cell
  | .date r => .str (toYMD r.dateOf)
  | _ => .blank

/-- Apply `normalizeDateCell` to the date column of one row. -/
def mapDateCol (r : Row) : Row :=
  r.map (fun p => if p.1 = "日期" then (p.1, normalizeDateCell p.2) else p)

/-- `load_data` (weight_app.py lines 241-251).  `none` models a read that
raises (the `except` branch); empty records give an empty dataframe; otherwise
the date column, when present, is normalized to `YYYY-MM-DD` strings. -/
def load_data : Option DF → DF
  | none => ⟨[], []⟩
  | some df =>
    if df.rows.isEmpty then ⟨[], []⟩
    else if "日期" ∈ df.cols then ⟨df.cols, df.rows.map mapDateCol⟩
    else df

/-- The daily totals dictionary of `calculate_daily_summary`. -/
structure Totals where
  cal : ℚ
  prot : ℚ
  carb : ℚ
  fat : ℚ
  water : ℚ
deriving DecidableEq, Repr

/-- `pd.to_numeric(df[col], errors="coerce").fillna(0).sum()`. -/
def colSum (rows : List Row) (col : String) : ℚ :=
  (rows.map (fun r => cellNum (r.get col))).sum

/-- `df[df["日期"].astype(str) == target_date_str]`. -/
def filterDate (rows : List Row) (ts : String) : List Row :=
  rows.filter (fun r => optAsStr (r.get "日期") == ts)

/-- Body of `calculate_daily_summary` after the two `load_data` calls
(weight_app.py lines 255-277).  A pandas boolean filter keeps the column
index, so the `col in df_target.columns` checks are against the loaded
dataframe's columns. -/
def summaryCore (target_date : Date) (df_food df_water : DF) : Totals :=
  let target_date_str := toYMD target_date
  let food :=
    if ¬ df_food.rows.isEmpty ∧ "日期" ∈ df_food.cols then
      let df_target := filterDate df_food.rows target_date_str
      (fun col => if col ∈ df_food.cols then colSum df_target col else 0)
    else (fun _ => (0 : ℚ))
  let water :=
    if ¬ df_water.rows.isEmpty ∧ "日期" ∈ df_water.cols then
      let df_target_water := filterDate df_water.rows target_date_str
      match (if "水量(ml)" ∈ df_water.cols then some "水量(ml)"
             else if "水量" ∈ df_water.cols then some "水量" else none) with
      | some water_col => colSum df_target_water water_col
      | none => 0
    else 0
  ⟨food "熱量", food "蛋白質", food "碳水", food "脂肪", water⟩

/-- `calculate_daily_summary` (weight_app.py lines 253-277): load the Food and
Water sheets and aggregate the target date.  A raw table of `none` models a
sheet whose read raises, which the source catches (`except: pass` /
`load_data`'s own handler), degrading that table to zero contribution. -/
def calculate_daily_summary (target_date : Date) (foodRaw waterRaw : Option DF) : Totals :=
  summaryCore target_date (load_data foodRaw) (load_data waterRaw)

/-- The backing spreadsheet, as seen through `get_all_records`. -/
structure Store where
  food : Option DF
  water : Option DF
deriving DecidableEq

/-- `load_data` as explicit state passing over the store: reading a sheet
returns its dataframe and leaves the store unchanged (the read path of the
source performs no writes to the tables). -/
def load_dataS (s : Store) (sheet : String) : DF × Store :=
  (load_data (if sheet = FOOD_SHEET_NAME then s.food else s.water), s)

/-- `calculate_daily_summary` as explicit state passing over the store. -/
def calculate_daily_summaryS (target_date : Date) (s : Store) : Totals × Store :=
  let fs := load_dataS s FOOD_SHEET_NAME
  let ws := load_dataS fs.2 WATER_SHEET_NAME
  (summaryCore target_date fs.1 ws.1, ws.2)

/-- The config dictionary: goal name to numeric value. -/
abbrev Config := List (String × ℚ)

/-- Python `dict.get(key, default)`. -/
def Config.getD (c : Config) (k : String) (d : ℚ) : ℚ :=
  ((c.find? (fun p => p.1 == k)).map Prod.snd).getD d

/-- `if key not in config: config[key] = v` (one line of `get_config`). -/
def applyDefault (c : Config) (k : String) (v : ℚ) : Config :=
  if (c.find? (fun p => p.1 == k)).isNone then c ++ [(k, v)] else c

/-- The default-installation step of `get_config` (weight_app.py lines 83-86). -/
def get_config_defaults (c : Config) : Config :=
  applyDefault (applyDefault (applyDefault (applyDefault c
    "target_weight" 75) "target_water" 3000) "target_cal" 1500) "target_protein" 160

/-- The alerts of `calculate_daily_macros_goal`, identified by rule, carrying
the numeric payload interpolated into the message.  `calExcess` renders red,
the others orange. -/
inductive Alert where
  | calExcess (excess : ℚ)
  | calTooLow
  | proteinLow (missing : ℚ)
  | carbHigh
deriving DecidableEq, Repr

/-- One row of the `macros_data` dataframe. -/
structure MacroRow where
  nutrient : String
  grams : ℚ
  calories : ℚ
  percentage : ℚ
deriving DecidableEq, Repr

/-- The dictionary returned by `calculate_daily_macros_goal`. -/
structure GoalResult where
  cal_percent : ℚ
  prot_percent : ℚ
  macros_data : List MacroRow
  alerts : List Alert
deriving DecidableEq, Repr

/-- `calculate_daily_macros_goal` (weight_app.py lines 279-330). -/
def calculate_daily_macros_goal (daily_stats : Totals) (config : Config) : GoalResult :=
  let target_cal := Config.getD config "target_cal" 1500
  let target_protein := Config.getD config "target_protein" 160
  let cal_percent := if target_cal > 0 then daily_stats.cal / target_cal * 100 else 0
  let prot_percent := if target_protein > 0 then daily_stats.prot / target_protein * 100 else 0
  let prot_cal := daily_stats.prot * 4
  let carb_cal := daily_stats.carb * 4
  let fat_cal := daily_stats.fat * 9
  let total_macro_cal := prot_cal + carb_cal + fat_cal
  let pct : ℚ → ℚ := fun c => if total_macro_cal > 0 then c / total_macro_cal * 100 else 0
  let macros_data : List MacroRow :=
    [⟨"蛋白質", daily_stats.prot, prot_cal, pct prot_cal⟩,
     ⟨"碳水化合物", daily_stats.carb, carb_cal, pct carb_cal⟩,
     ⟨"脂肪", daily_stats.fat, fat_cal, pct fat_cal⟩]
  let alerts : List Alert :=
    (if daily_stats.cal > target_cal then [.calExcess (daily_stats.cal - target_cal)]
     else if daily_stats.cal < target_cal * (1 / 2) then [.calTooLow]
     else [])
    ++ (if daily_stats.prot < target_protein then [.proteinLow (target_protein - daily_stats.prot)]
        else [])
    ++ (if daily_stats.carb > 120 then [.carbHigh] else [])
  ⟨cal_percent, prot_percent, macros_data, alerts⟩

/-- Spec-side view: the calendar date a raw row's date cell denotes, if any. -/
def rowDenotedDate (r : Row) : Option Date :=
  match r.get "日期" with
  | some (.date rep) => some rep.dateOf
  | _ => none

/-- Spec-side view: the sum of a numeric column over exactly the rows whose
denoted date matches the target. -/
def specMatchSum (rows : List Row) (t : Date) (col : String) : ℚ :=
  ((rows.filter (fun r => rowDenotedDate r == some t)).map
    (fun r => cellNum (r.get col))).sum

/-! ### Helper lemmas -/

theorem digitChar_inj {a b : Nat} (ha : a < 10) (hb : b < 10)
    (h : Nat.digitChar a = Nat.digitChar b) : a = b := by
  interval_cases a <;> interval_cases b <;> revert h <;> decide

theorem pad4_inj {a b : Nat} (ha : a < 10000) (hb : b < 10000)
    (h : pad4 a = pad4 b) : a = b := by
  have d10 : (0:Nat) < 10 := by norm_num
  simp only [pad4, List.cons.injEq, and_true] at h
  obtain ⟨e3, e2, e1, e0⟩ := h
  have q3 := digitChar_inj (Nat.mod_lt _ d10) (Nat.mod_lt _ d10) e3
  have q2 := digitChar_inj (Nat.mod_lt _ d10) (Nat.mod_lt _ d10) e2
  have q1 := digitChar_inj (Nat.mod_lt _ d10) (Nat.mod_lt _ d10) e1
  have q0 := digitChar_inj (Nat.mod_lt _ d10) (Nat.mod_lt _ d10) e0
  omega

theorem pad2_inj {a b : Nat} (ha : a < 100) (hb : b < 100)
    (h : pad2 a = pad2 b) : a = b := by
  have d10 : (0:Nat) < 10 := by norm_num
  simp only [pad2, List.cons.injEq, and_true] at h
  obtain ⟨e1, e0⟩ := h
  have q1 := digitChar_inj (Nat.mod_lt _ d10) (Nat.mod_lt _ d10) e1
  have q0 := digitChar_inj (Nat.mod_lt _ d10) (Nat.mod_lt _ d10) e0
  omega

theorem toYMD_inj {a b : Date} (ha : a.Valid) (hb : b.Valid)
    (h : toYMD a = toYMD b) : a = b := by
  obtain ⟨hy, hm1, hm2, hd1, hd2⟩ := ha
  obtain ⟨hy', hm1', hm2', hd1', hd2'⟩ := hb
  have h' : pad4 a.year ++ '-' :: pad2 a.month ++ '-' :: pad2 a.day =
      pad4 b.year ++ '-' :: pad2 b.month ++ '-' :: pad2 b.day :=
    congrArg String.data h
  have hyr : pad4 a.year = pad4 b.year ∧
      '-' :: pad2 a.month ++ '-' :: pad2 a.day =
      '-' :: pad2 b.month ++ '-' :: pad2 b.day :=
    List.append_inj h' rfl
  obtain ⟨hYe, hrest⟩ := hyr
  have hmo : '-' :: pad2 a.month = '-' :: pad2 b.month ∧
      '-' :: pad2 a.day = '-' :: pad2 b.day :=
    List.append_inj hrest rfl
  have hMo := (List.cons_eq_cons.mp hmo.1).2
  have hDa := (List.cons_eq_cons.mp hmo.2).2
  have ey := pad4_inj hy hy' hYe
  have em := pad2_inj (by omega) (by omega) hMo
  have ed := pad2_inj (by omega) (by omega) hDa
  cases a; cases b
  simp_all

theorem Row.get_mapDateCol (r : Row) (c : String) :
    Row.get (mapDateCol r) c =
      (Row.get r c).map (fun v => if c = "日期" then normalizeDateCell v else v) := by
  induction r with
  | nil => rfl
  | cons p r ih =>
    obtain ⟨k, v⟩ := p
    by_cases hc : k = c
    · subst hc
      by_cases hm : k = "日期" <;>
        simp [mapDateCol, Row.get, List.find?_cons, hm]
    · have hbeq : (k == c) = false := by simp [hc]
      by_cases hm : k = "日期"
      · subst hm
        simpa [mapDateCol, Row.get, List.find?_cons, hbeq] using ih
      · simpa [mapDateCol, Row.get, List.find?_cons, hm, hbeq] using ih

theorem Row.get_mapDateCol_ne (r : Row) (c : String) (h : c ≠ "日期") :
    Row.get (mapDateCol r) c = Row.get r c := by
  simp [Row.get_mapDateCol, h]

theorem colSum_mapDateCol (l : List Row) (col : String) (h : col ≠ "日期") :
    colSum (l.map mapDateCol) col = colSum l col := by
  induction l with
  | nil => rfl
  | cons r l ih =>
    simp only [colSum, List.map_cons, List.sum_cons] at ih ⊢
    rw [Row.get_mapDateCol_ne r col h, ih]

theorem filterDate_load (rows : List Row) (t : Date) (ht : t.Valid)
    (hdates : ∀ r ∈ rows, ∃ rep,
      Row.get r "日期" = some (.date rep) ∧ rep.dateOf.Valid) :
    filterDate (rows.map mapDateCol) (toYMD t) =
      (rows.filter (fun r => rowDenotedDate r == some t)).map mapDateCol := by
  induction rows with
  | nil => rfl
  | cons r rows ih =>
    obtain ⟨rep, hrep, hval⟩ := hdates r (by simp)
    have hrest := ih (fun x hx => hdates x (List.mem_cons_of_mem _ hx))
    have h1 : optAsStr (Row.get (mapDateCol r) "日期") = toYMD rep.dateOf := by
      rw [Row.get_mapDateCol, hrep]
      simp [normalizeDateCell, optAsStr, Cell.asStr]
    have h2 : rowDenotedDate r = some rep.dateOf := by
      simp [rowDenotedDate, hrep]
    by_cases hdt : rep.dateOf = t
    · simp [filterDate, List.filter_cons, h1, h2, hdt] at *
      simpa [filterDate] using hrest
    · have hne : toYMD rep.dateOf ≠ toYMD t := fun he => hdt (toYMD_inj hval ht he)
      simp [filterDate, List.filter_cons, h1, h2, hdt, hne] at *
      simpa [filterDate] using hrest

theorem specMatchSum_nil (t : Date) (col : String) : specMatchSum [] t col = 0 := rfl

theorem colSum_load_filter (rows : List Row) (t : Date) (col : String)
    (ht : t.Valid) (hcol : col ≠ "日期")
    (hdates : ∀ r ∈ rows, ∃ rep,
      Row.get r "日期" = some (.date rep) ∧ rep.dateOf.Valid) :
    colSum (filterDate (rows.map mapDateCol) (toYMD t)) col = specMatchSum rows t col := by
  rw [filterDate_load rows t ht hdates, colSum_mapDateCol _ _ hcol]
  rfl

/-! ### Claims -/

/-- C2: the aggregation normalizes every stored date representation (bare date
string, date object, or timestamp with a time component) by parsing it and
re-serializing to `YYYY-MM-DD` before comparing with the target date, so the
normalized string matches the target exactly when the representation denotes
the target day. -/
theorem normalized_date_matches_iff_same_day (rep : DateRep) (t : Date)
    (hrep : rep.dateOf.Valid) (ht : t.Valid) :
    (normalizeDateCell (Cell.date rep)).asStr = toYMD t ↔ rep.dateOf = t := by
  constructor
  · intro h
    exact toYMD_inj hrep ht h
  · intro h
    simp [normalizeDateCell, Cell.asStr, h]

theorem normalized_date_matches_iff_same_day_witness :
    (normalizeDateCell (Cell.date (.timestamp ⟨2025, 6, 1⟩ 13 30))).asStr ≠
      toYMD ⟨2025, 6, 2⟩ ∧
    (normalizeDateCell (Cell.date (.timestamp ⟨2025, 6, 2⟩ 13 30))).asStr =
      toYMD ⟨2025, 6, 2⟩ := by
  constructor
  · intro he
    have h := (normalized_date_matches_iff_same_day (.timestamp ⟨2025, 6, 1⟩ 13 30)
      ⟨2025, 6, 2⟩ (by decide) (by decide)).mp he
    exact absurd h (by decide)
  · exact (normalized_date_matches_iff_same_day (.timestamp ⟨2025, 6, 2⟩ 13 30)
      ⟨2025, 6, 2⟩ (by decide) (by decide)).mpr rfl

/-- C1: for every target date, `calculate_daily_summary` returns totals whose
calorie/protein/carb/fat fields are the sums of the corresponding numeric
columns over exactly the Food rows whose date matches the target date, and
whose water field is the sum of the volume column over exactly the matching
Water rows. -/
theorem daily_totals_match_date_sums (t : Date) (foodRaw waterRaw : DF)
    (ht : t.Valid)
    (hfd : "日期" ∈ foodRaw.cols) (hwd : "日期" ∈ waterRaw.cols)
    (hc1 : "熱量" ∈ foodRaw.cols) (hc2 : "蛋白質" ∈ foodRaw.cols)
    (hc3 : "碳水" ∈ foodRaw.cols) (hc4 : "脂肪" ∈ foodRaw.cols)
    (hwc : "水量(ml)" ∈ waterRaw.cols)
    (hfdates : ∀ r ∈ foodRaw.rows, ∃ rep,
      Row.get r "日期" = some (.date rep) ∧ rep.dateOf.Valid)
    (hwdates : ∀ r ∈ waterRaw.rows, ∃ rep,
      Row.get r "日期" = some (.date rep) ∧ rep.dateOf.Valid) :
    calculate_daily_summary t (some foodRaw) (some waterRaw) =
      ⟨specMatchSum foodRaw.rows t "熱量", specMatchSum foodRaw.rows t "蛋白質",
       specMatchSum foodRaw.rows t "碳水", specMatchSum foodRaw.rows t "脂肪",
       specMatchSum waterRaw.rows t "水量(ml)"⟩ := by
  unfold calculate_daily_summary
  have hloadf : load_data (some foodRaw) =
      if foodRaw.rows.isEmpty then ⟨[], []⟩
      else ⟨foodRaw.cols, foodRaw.rows.map mapDateCol⟩ := by
    simp [load_data, hfd]
  have hloadw : load_data (some waterRaw) =
      if waterRaw.rows.isEmpty then ⟨[], []⟩
      else ⟨waterRaw.cols, waterRaw.rows.map mapDateCol⟩ := by
    simp [load_data, hwd]
  rw [hloadf, hloadw]
  have e1 := colSum_load_filter foodRaw.rows t "熱量" ht (by decide) hfdates
  have e2 := colSum_load_filter foodRaw.rows t "蛋白質" ht (by decide) hfdates
  have e3 := colSum_load_filter foodRaw.rows t "碳水" ht (by decide) hfdates
  have e4 := colSum_load_filter foodRaw.rows t "脂肪" ht (by decide) hfdates
  have e5 := colSum_load_filter waterRaw.rows t "水量(ml)" ht (by decide) hwdates
  by_cases hfe : foodRaw.rows = [] <;> by_cases hwe : waterRaw.rows = [] <;>
    simp [summaryCore, hfe, hwe, List.isEmpty_iff, List.map_eq_nil_iff,
      hfd, hwd, hc1, hc2, hc3, hc4, hwc, e1, e2, e3, e4, e5, specMatchSum_nil]

/-- The end-to-end scenario of the spec: target date 2025-03-01. -/
def exDate1 : Date := ⟨2025, 3, 1⟩

/-- The other date of the end-to-end scenario, 2025-03-02. -/
def exDate2 : Date := ⟨2025, 3, 2⟩

/-- Food table of the end-to-end scenario. -/
def exFoodDF : DF :=
  ⟨["日期", "時間", "食物名稱", "熱量", "蛋白質", "碳水", "脂肪"],
   [[("日期", .date (.bare exDate1)), ("熱量", .num 500), ("蛋白質", .num 30),
     ("碳水", .num 40), ("脂肪", .num 10)],
    [("日期", .date (.bare exDate2)), ("熱量", .num 600), ("蛋白質", .num 35),
     ("碳水", .num 50), ("脂肪", .num 15)]]⟩

/-- Water table of the end-to-end scenario. -/
def exWaterDF : DF :=
  ⟨["日期", "時間", "水量(ml)"],
   [[("日期", .date (.bare exDate1)), ("水量(ml)", .num 1000)]]⟩

theorem daily_totals_match_date_sums_witness :
    calculate_daily_summary exDate1 (some exFoodDF) (some exWaterDF) =
      ⟨500, 30, 40, 10, 1000⟩ := by
  have h := daily_totals_match_date_sums exDate1 exFoodDF exWaterDF
    (by decide) (by decide) (by decide) (by decide) (by decide) (by decide)
    (by decide) (by decide)
    (by
      intro r hr
      simp only [exFoodDF, List.mem_cons, List.not_mem_nil, or_false] at hr
      rcases hr with h | h <;> subst h
      · exact ⟨.bare exDate1, rfl, by decide⟩
      · exact ⟨.bare exDate2, rfl, by decide⟩)
    (by
      intro r hr
      simp only [exWaterDF, List.mem_cons, List.not_mem_nil, or_false] at hr
      subst hr
      exact ⟨.bare exDate1, rfl, by decide⟩)
  refine h.trans ?_
  have hne : exDate2 ≠ exDate1 := by decide
  simp [specMatchSum, rowDenotedDate, Row.get, DateRep.dateOf, exFoodDF, exWaterDF,
    cellNum, Cell.numOpt, hne]

theorem summaryCore_zero_of_empty_filter (t : Date) (f w : DF)
    (hf : filterDate f.rows (toYMD t) = []) (hw : filterDate w.rows (toYMD t) = []) :
    summaryCore t f w = ⟨0, 0, 0, 0, 0⟩ := by
  have hz : ∀ col : String, colSum ([] : List Row) col = 0 := fun _ => rfl
  by_cases hF : ¬f.rows.isEmpty = true ∧ "日期" ∈ f.cols <;>
  by_cases hW : ¬w.rows.isEmpty = true ∧ "日期" ∈ w.cols <;>
  by_cases h1 : "水量(ml)" ∈ w.cols <;>
  by_cases h2 : "水量" ∈ w.cols <;>
  simp [summaryCore, hf, hw, hF, hW, h1, h2, hz]

/-- C3: `calculate_daily_summary` total computation: an absent/unreadable or
empty Food table contributes zero to the four nutrition fields while the water
field is still computed normally, and symmetrically for the Water table
(partial-failure isolation); for a date with no matching Food or Water rows
all five totals are 0. -/
theorem summary_failure_isolation (t : Date) (foodRaw waterRaw : Option DF) :
    ((calculate_daily_summary t none waterRaw).cal = 0 ∧
     (calculate_daily_summary t none waterRaw).prot = 0 ∧
     (calculate_daily_summary t none waterRaw).carb = 0 ∧
     (calculate_daily_summary t none waterRaw).fat = 0 ∧
     (calculate_daily_summary t none waterRaw).water =
       (calculate_daily_summary t foodRaw waterRaw).water) ∧
    ((calculate_daily_summary t foodRaw none).water = 0 ∧
     (calculate_daily_summary t foodRaw none).cal =
       (calculate_daily_summary t foodRaw waterRaw).cal ∧
     (calculate_daily_summary t foodRaw none).prot =
       (calculate_daily_summary t foodRaw waterRaw).prot ∧
     (calculate_daily_summary t foodRaw none).carb =
       (calculate_daily_summary t foodRaw waterRaw).carb ∧
     (calculate_daily_summary t foodRaw none).fat =
       (calculate_daily_summary t foodRaw waterRaw).fat) ∧
    (filterDate (load_data foodRaw).rows (toYMD t) = [] →
     filterDate (load_data waterRaw).rows (toYMD t) = [] →
     calculate_daily_summary t foodRaw waterRaw = ⟨0, 0, 0, 0, 0⟩) := by
  refine ⟨⟨rfl, rfl, rfl, rfl, rfl⟩, ⟨rfl, rfl, rfl, rfl, rfl⟩, ?_⟩
  intro hf hw
  exact summaryCore_zero_of_empty_filter t _ _ hf hw

theorem summary_failure_isolation_witness :
    calculate_daily_summary ⟨2025, 3, 3⟩ (some exFoodDF) (some exWaterDF) =
      ⟨0, 0, 0, 0, 0⟩ := by
  exact (summary_failure_isolation ⟨2025, 3, 3⟩
    (some exFoodDF) (some exWaterDF)).2.2 (by decide) (by decide)

/-- C4: the macro breakdown of `calculate_daily_macros_goal` is computed on an
energy basis: the calories column is grams times the fixed factors 4/4/9
(protein/carb/fat), and each percentage is that row's calories over the summed
macro-calories times 100, with all three percentages 0 when the summed
macro-calories is 0. -/
theorem macro_breakdown_energy_basis (stats : Totals) (config : Config) :
    ((calculate_daily_macros_goal stats config).macros_data.map MacroRow.calories =
      [stats.prot * 4, stats.carb * 4, stats.fat * 9]) ∧
    ((calculate_daily_macros_goal stats config).macros_data.map MacroRow.grams =
      [stats.prot, stats.carb, stats.fat]) ∧
    (stats.prot * 4 + stats.carb * 4 + stats.fat * 9 > 0 →
      (calculate_daily_macros_goal stats config).macros_data.map MacroRow.percentage =
        [stats.prot * 4 / (stats.prot * 4 + stats.carb * 4 + stats.fat * 9) * 100,
         stats.carb * 4 / (stats.prot * 4 + stats.carb * 4 + stats.fat * 9) * 100,
         stats.fat * 9 / (stats.prot * 4 + stats.carb * 4 + stats.fat * 9) * 100]) ∧
    (stats.prot * 4 + stats.carb * 4 + stats.fat * 9 = 0 →
      (calculate_daily_macros_goal stats config).macros_data.map MacroRow.percentage =
        [0, 0, 0]) := by
  refine ⟨rfl, rfl, ?_, ?_⟩
  · intro h
    simp [calculate_daily_macros_goal, h]
  · intro h
    simp [calculate_daily_macros_goal, h]

theorem macro_breakdown_energy_basis_witness :
    ((calculate_daily_macros_goal ⟨500, 50, 50, 10, 1000⟩ []).macros_data.map
      MacroRow.calories = [200, 200, 90]) ∧
    ((calculate_daily_macros_goal ⟨500, 50, 50, 10, 1000⟩ []).macros_data.map
      MacroRow.percentage = [2000 / 49, 2000 / 49, 900 / 49]) := by
  have h := macro_breakdown_energy_basis ⟨500, 50, 50, 10, 1000⟩ []
  constructor
  · exact h.1.trans (by norm_num)
  · refine (h.2.2.1 (by norm_num)).trans ?_
    norm_num

/-- C6: `cal_percent` is `totals.cal / target_cal * 100` when `target_cal > 0`
and 0 when `target_cal <= 0`, and `prot_percent` likewise against
`target_protein`; no division-by-zero is possible. -/
theorem percent_zero_guards (stats : Totals) (config : Config) :
    ((Config.getD config "target_cal" 1500 > 0 →
      (calculate_daily_macros_goal stats config).cal_percent =
        stats.cal / Config.getD config "target_cal" 1500 * 100) ∧
     (Config.getD config "target_cal" 1500 ≤ 0 →
      (calculate_daily_macros_goal stats config).cal_percent = 0)) ∧
    ((Config.getD config "target_protein" 160 > 0 →
      (calculate_daily_macros_goal stats config).prot_percent =
        stats.prot / Config.getD config "target_protein" 160 * 100) ∧
     (Config.getD config "target_protein" 160 ≤ 0 →
      (calculate_daily_macros_goal stats config).prot_percent = 0)) := by
  refine ⟨⟨fun h => ?_, fun h => ?_⟩, fun h => ?_, fun h => ?_⟩
  · simp [calculate_daily_macros_goal, h]
  · simp [calculate_daily_macros_goal, not_lt.mpr h]
  · simp [calculate_daily_macros_goal, h]
  · simp [calculate_daily_macros_goal, not_lt.mpr h]

theorem percent_zero_guards_witness :
    ((calculate_daily_macros_goal ⟨500, 30, 40, 10, 0⟩ [("target_cal", 0)]).cal_percent
      = 0) ∧
    ((calculate_daily_macros_goal ⟨500, 30, 40, 10, 0⟩ [("target_cal", 0)]).prot_percent
      = 30 / 160 * 100) := by
  have h := percent_zero_guards ⟨500, 30, 40, 10, 0⟩ [("target_cal", 0)]
  have hne : ("target_cal" : String) ≠ "target_protein" := by decide
  constructor
  · exact h.1.2 (by norm_num [Config.getD])
  · exact (h.2.1 (by norm_num [Config.getD, hne])).trans (by norm_num [Config.getD, hne])

/-- C5: the alerts are produced by the four fixed rules in declaration order,
rules 1 and 2 (calorie excess / under-eating) mutually exclusive, rules 3
(protein deficit) and 4 (carbs over the fixed 120 g threshold) independent; when
calories exceed the target and carbs exceed 120 both the calorie-excess and the
carb-excess alerts appear, calorie-excess first. -/
theorem alerts_order_and_independence (stats : Totals) (config : Config) :
    (¬ ((∃ e, Alert.calExcess e ∈ (calculate_daily_macros_goal stats config).alerts) ∧
        Alert.calTooLow ∈ (calculate_daily_macros_goal stats config).alerts)) ∧
    (Alert.carbHigh ∈ (calculate_daily_macros_goal stats config).alerts ↔
      stats.carb > 120) ∧
    ((∃ m, Alert.proteinLow m ∈ (calculate_daily_macros_goal stats config).alerts) ↔
      stats.prot < Config.getD config "target_protein" 160) ∧
    (stats.cal > Config.getD config "target_cal" 1500 → stats.carb > 120 →
      (calculate_daily_macros_goal stats config).alerts =
        Alert.calExcess (stats.cal - Config.getD config "target_cal" 1500) ::
        ((if stats.prot < Config.getD config "target_protein" 160 then
            [Alert.proteinLow (Config.getD config "target_protein" 160 - stats.prot)]
          else []) ++ [Alert.carbHigh])) := by
  by_cases h1 : stats.cal > Config.getD config "target_cal" 1500 <;>
  by_cases h2 : stats.cal < Config.getD config "target_cal" 1500 * (1 / 2) <;>
  by_cases h3 : stats.prot < Config.getD config "target_protein" 160 <;>
  by_cases h4 : stats.carb > 120 <;>
    simp [calculate_daily_macros_goal, h1, h2, h3, h4]

theorem alerts_order_and_independence_witness :
    (calculate_daily_macros_goal ⟨2000, 50, 130, 10, 0⟩
        [("target_cal", 1500), ("target_protein", 160)]).alerts =
      [Alert.calExcess 500, Alert.proteinLow 110, Alert.carbHigh] := by
  have h := (alerts_order_and_independence ⟨2000, 50, 130, 10, 0⟩
    [("target_cal", 1500), ("target_protein", 160)]).2.2.2
    (by norm_num [Config.getD]) (by norm_num)
  refine h.trans ?_
  simp [Config.getD, List.find?]
  norm_num

theorem colSum_filterDate_nil (ts : String) (col : String) :
    colSum (filterDate [] ts) col = 0 := rfl

theorem colSum_cons_zero_head (l : List Row) (ts : String) (r : Row) (col : String)
    (hz : cellNum (Row.get r col) = 0) :
    colSum (filterDate (r :: l) ts) col = colSum (filterDate l ts) col := by
  unfold filterDate colSum
  rw [List.filter_cons]
  split
  · simp [hz]
  · rfl

/-- C7: a numeric cell that is missing, blank, or non-numeric contributes
exactly 0 to the aggregated sum: prepending such a row leaves the calorie
total unchanged, and a column sum equals the sum over only the numerically
parseable cells; blank and non-numeric strings and NaN all parse to nothing. -/
theorem nonnumeric_cells_contribute_zero
    (t : Date) (raw : DF) (r : Row) (water : Option DF)
    (rows : List Row) (col : String)
    (hbad : (Row.get r "熱量").bind Cell.numOpt = none) :
    ((calculate_daily_summary t (some ⟨raw.cols, r :: raw.rows⟩) water).cal =
      (calculate_daily_summary t (some raw) water).cal) ∧
    (colSum rows col =
      colSum (rows.filter (fun x => ((Row.get x col).bind Cell.numOpt).isSome)) col) ∧
    Cell.numOpt (.str "") = none ∧ Cell.numOpt (.str "三杯水") = none ∧
    Cell.numOpt .blank = none := by
  refine ⟨?_, ?_, rfl, rfl, rfl⟩
  · have hz2 : cellNum (Row.get (mapDateCol r) "熱量") = 0 := by
      rw [Row.get_mapDateCol_ne r _ (by decide)]
      simp [cellNum, hbad]
    by_cases hdm : "日期" ∈ raw.cols <;> by_cases hre : raw.rows = [] <;>
      by_cases hc : "熱量" ∈ raw.cols <;>
        simp [calculate_daily_summary, load_data, summaryCore, hdm, hre, hc,
          List.isEmpty_iff, List.map_eq_nil_iff,
          colSum_cons_zero_head _ _ _ _ hz2, colSum_filterDate_nil]
  · induction rows with
    | nil => rfl
    | cons x l ih =>
      by_cases hx : ((Row.get x col).bind Cell.numOpt).isSome
      · simp only [colSum, List.map_cons, List.sum_cons, List.filter_cons, hx,
          if_true] at ih ⊢
        rw [ih]
      · have hzx : cellNum (Row.get x col) = 0 := by
          rw [Option.not_isSome_iff_eq_none] at hx
          simp [cellNum, hx]
        simp only [colSum, List.map_cons, List.sum_cons, List.filter_cons, hx,
          Bool.false_eq_true, if_false] at ih ⊢
        rw [hzx, ih, zero_add]

theorem nonnumeric_cells_contribute_zero_witness :
    (calculate_daily_summary exDate1
        (some ⟨exFoodDF.cols, [("日期", Cell.date (.bare exDate1)), ("熱量", Cell.str "")]
          :: exFoodDF.rows⟩) (some exWaterDF)).cal =
      (calculate_daily_summary exDate1 (some exFoodDF) (some exWaterDF)).cal := by
  exact (nonnumeric_cells_contribute_zero exDate1 exFoodDF
    [("日期", Cell.date (.bare exDate1)), ("熱量", Cell.str "")] (some exWaterDF)
    [] "熱量" (by decide)).1

/-- C8: the hydration column is resolved by name with alias tolerance: the
canonical header `水量(ml)` is preferred, the alias `水量` is used when the
canonical one is absent, and the water total is 0 when neither is present. -/
theorem water_column_alias_resolution (t : Date) (food : Option DF) (wraw : DF)
    (hwd : "日期" ∈ wraw.cols) :
    ("水量(ml)" ∈ wraw.cols →
      (calculate_daily_summary t food (some wraw)).water =
        colSum (filterDate (load_data (some wraw)).rows (toYMD t)) "水量(ml)") ∧
    ("水量(ml)" ∉ wraw.cols → "水量" ∈ wraw.cols →
      (calculate_daily_summary t food (some wraw)).water =
        colSum (filterDate (load_data (some wraw)).rows (toYMD t)) "水量") ∧
    ("水量(ml)" ∉ wraw.cols → "水量" ∉ wraw.cols →
      (calculate_daily_summary t food (some wraw)).water = 0) := by
  refine ⟨fun h1 => ?_, fun h1 h2 => ?_, fun h1 h2 => ?_⟩ <;>
    by_cases hre : wraw.rows = [] <;>
      simp [calculate_daily_summary, load_data, summaryCore, hwd, h1, hre,
        List.isEmpty_iff, List.map_eq_nil_iff, colSum_filterDate_nil] <;>
      simp [h2]

theorem water_column_alias_resolution_witness :
    (calculate_daily_summary exDate1 none
        (some ⟨["日期", "時間", "水量"],
          [[("日期", Cell.date (.bare exDate1)), ("水量", Cell.num 700)]]⟩)).water =
      700 := by
  have h := (water_column_alias_resolution exDate1 none
    ⟨["日期", "時間", "水量"],
     [[("日期", Cell.date (.bare exDate1)), ("水量", Cell.num 700)]]⟩
    (by decide)).2.1 (by decide) (by decide)
  refine h.trans ?_
  simp [load_data, mapDateCol, filterDate, colSum, Row.get, cellNum, Cell.numOpt,
    normalizeDateCell, optAsStr, Cell.asStr, DateRep.dateOf]

/-- C9: the core computations are deterministic and side-effect-free: the
state-passing read path returns the store unchanged, a second run over the
unchanged store yields the identical totals, and `calculate_daily_macros_goal`
yields identical results for identical totals and config. -/
theorem core_pure_deterministic (t : Date) (s : Store) (s1 s2 : Totals)
    (c1 c2 : Config) :
    ((calculate_daily_summaryS t s).2 = s) ∧
    ((calculate_daily_summaryS t (calculate_daily_summaryS t s).2).1 =
      (calculate_daily_summaryS t s).1) ∧
    (s1 = s2 → c1 = c2 →
      calculate_daily_macros_goal s1 c1 = calculate_daily_macros_goal s2 c2) := by
  exact ⟨rfl, rfl, fun h1 h2 => by rw [h1, h2]⟩

theorem core_pure_deterministic_witness :
    (calculate_daily_summaryS exDate1 ⟨some exFoodDF, some exWaterDF⟩).2 =
      ⟨some exFoodDF, some exWaterDF⟩ ∧
    calculate_daily_macros_goal ⟨500, 30, 40, 10, 0⟩ [] =
      calculate_daily_macros_goal ⟨500, 30, 40, 10, 0⟩ [] := by
  have h := core_pure_deterministic exDate1 ⟨some exFoodDF, some exWaterDF⟩
    ⟨500, 30, 40, 10, 0⟩ ⟨500, 30, 40, 10, 0⟩ [] []
  exact ⟨h.1, h.2.2 rfl rfl⟩

theorem find?_applyDefault_self (c : Config) (k : String) (v : ℚ)
    (h : c.find? (fun p => p.1 == k) = none) :
    (applyDefault c k v).find? (fun p => p.1 == k) = some (k, v) := by
  unfold applyDefault
  rw [if_pos (by simp [h])]
  rw [List.find?_append, h]
  simp

theorem find?_applyDefault_ne (c : Config) (k k' : String) (v : ℚ) (h : k ≠ k') :
    (applyDefault c k v).find? (fun p => p.1 == k') = c.find? (fun p => p.1 == k') := by
  unfold applyDefault
  split
  · rw [List.find?_append]
    have hkk : (k == k') = false := by simp [h]
    have hone : List.find? (fun p => p.1 == k') [(k, v)] = none := by
      simp [List.find?, hkk]
    rw [hone, Option.or_none]
  · rfl

/-- C10: when the config mapping lacks `target_cal` or `target_protein`,
`calculate_daily_macros_goal` silently substitutes the fixed defaults 1500 and
160 and computes percentages and alerts against them; these are the same
defaults `get_config` installs for absent keys, alongside `target_weight`
75.0 and `target_water` 3000. -/
theorem missing_config_keys_use_defaults (stats : Totals) (config : Config)
    (h1 : config.find? (fun p => p.1 == "target_cal") = none)
    (h2 : config.find? (fun p => p.1 == "target_protein") = none) :
    (calculate_daily_macros_goal stats config =
      calculate_daily_macros_goal stats [("target_cal", 1500), ("target_protein", 160)]) ∧
    ((calculate_daily_macros_goal stats config).cal_percent = stats.cal / 1500 * 100) ∧
    ((calculate_daily_macros_goal stats config).prot_percent = stats.prot / 160 * 100) ∧
    (∀ c : Config,
      (c.find? (fun p => p.1 == "target_weight") = none →
        Config.getD (get_config_defaults c) "target_weight" 0 = 75) ∧
      (c.find? (fun p => p.1 == "target_water") = none →
        Config.getD (get_config_defaults c) "target_water" 0 = 3000) ∧
      (c.find? (fun p => p.1 == "target_cal") = none →
        Config.getD (get_config_defaults c) "target_cal" 0 = 1500) ∧
      (c.find? (fun p => p.1 == "target_protein") = none →
        Config.getD (get_config_defaults c) "target_protein" 0 = 160)) := by
  have e1 : Config.getD config "target_cal" 1500 = 1500 := by
    simp [Config.getD, h1]
  have e2 : Config.getD config "target_protein" 160 = 160 := by
    simp [Config.getD, h2]
  refine ⟨?_, ?_, ?_, ?_⟩
  · unfold calculate_daily_macros_goal
    rw [e1, e2]
    simp [Config.getD, List.find?]
  · unfold calculate_daily_macros_goal
    rw [e1]
    norm_num
  · unfold calculate_daily_macros_goal
    rw [e2]
    norm_num
  · intro c
    refine ⟨fun hw => ?_, fun hwa => ?_, fun hc => ?_, fun hp => ?_⟩
    · unfold get_config_defaults
      rw [Config.getD,
        find?_applyDefault_ne _ _ _ _ (by decide),
        find?_applyDefault_ne _ _ _ _ (by decide),
        find?_applyDefault_ne _ _ _ _ (by decide),
        find?_applyDefault_self _ _ _ hw]
      rfl
    · unfold get_config_defaults
      rw [Config.getD,
        find?_applyDefault_ne _ _ _ _ (by decide),
        find?_applyDefault_ne _ _ _ _ (by decide),
        find?_applyDefault_self _ _ _
          (by rw [find?_applyDefault_ne _ _ _ _ (by decide)]; exact hwa)]
      rfl
    · unfold get_config_defaults
      rw [Config.getD,
        find?_applyDefault_ne _ _ _ _ (by decide),
        find?_applyDefault_self _ _ _
          (by rw [find?_applyDefault_ne _ _ _ _ (by decide),
                  find?_applyDefault_ne _ _ _ _ (by decide)]; exact hc)]
      rfl
    · unfold get_config_defaults
      rw [Config.getD,
        find?_applyDefault_self _ _ _
          (by rw [find?_applyDefault_ne _ _ _ _ (by decide),
                  find?_applyDefault_ne _ _ _ _ (by decide),
                  find?_applyDefault_ne _ _ _ _ (by decide)]; exact hp)]
      rfl

theorem missing_config_keys_use_defaults_witness :
    (calculate_daily_macros_goal ⟨1000, 100, 50, 20, 0⟩
        [("target_weight", 80)]).cal_percent = 1000 / 1500 * 100 := by
  exact (missing_config_keys_use_defaults ⟨1000, 100, 50, 20, 0⟩
    [("target_weight", 80)] (by decide) (by decide)).2.1

end WeightApp
